import Mathlib

/-!
Shallow embedding of the 0xTinkertoy `Execution` kernel core
(`Sources/Execution/…`): task control blocks with a stateful syscall
argument cursor, the `create_thread` service routine family
(`SimpleThreadBased/KernelServiceRoutines.hpp`), the event-driven
service routines (`SimpleEventDriven/KernelServiceRoutines.hpp`),
the trampoline context injectors (`SimpleEventDriven/EventHandlerTrampoline.hpp`),
the common routines (`Common/KernelServiceRoutines.hpp`),
and the dispatcher loop body (`Common/Dispatcher.hpp`).

Machine pointers are modelled as natural-number addresses; `nullptr`
is rendered as `Option.none` where the code tests a pointer against null.
A fatal error (`pfatal` / `precondition` failure) halts the kernel and is
rendered as `Option.none` at the routine's result type.
-/

set_option autoImplicit false

namespace Execution

/-- Machine addresses (`UInt8*` values). -/
abbrev Ptr := Nat

/-- Identity of a task control block (`Task*`), for the components that
operate on TCB pointers (dispatcher, injectors). -/
abbrev TaskPtr := Nat

/-- A raw value sitting in the syscall argument area read by the stateful
cursor (`getSyscallArgument<T>()` / `va_arg`): the argument types used by
the routines in this repository are `int`, `size_t`/`UInt32`,
`const UInt8*`, and `std::pair<UInt8*, size_t>`. -/
inductive Val where
  | vint : Int → Val
  | vnat : Nat → Val
  | vptr : Ptr → Val
  | vpair : Ptr → Nat → Val
deriving DecidableEq

/-- Reinterpret a raw argument value as an `int` (`va_arg(*ptr, int)`);
a mismatched read yields an unspecified value, rendered as `0`. -/
def decodeInt : Val → Int
  | Val.vint i => i
  | _ => 0

/-- Reinterpret a raw argument value as a `size_t`/`UInt32`. -/
def decodeNat : Val → Nat
  | Val.vnat n => n
  | _ => 0

/-- Reinterpret a raw argument value as a `const UInt8*`. -/
def decodePtr : Val → Ptr
  | Val.vptr p => p
  | _ => 0

/-- Reinterpret a raw argument value as a `std::pair<UInt8*, size_t>`. -/
def decodePair : Val → Ptr × Nat
  | Val.vpair b s => (b, s)
  | _ => (0, 0)

/-- Task control block assembled from the components of
`Common/TaskControlBlockComponents.hpp` that the thread-based service
routines require: a dedicated recyclable stack
(`DedicatedRecyclableStackSupport`: current stack pointer plus the start
address of the private stack), a unique numeric identifier
(`UniqueNumericIdentifierSupport`), a priority level
(`PriorityLevelSupport`), and system-call support (`SystemCallSupport`:
the stateful argument cursor, modelled as the list of not-yet-consumed
raw argument values, and the kernel return value slot of the saved
execution context). -/
structure TCB where
  stackPointer : Option Ptr
  privateStack : Option Ptr
  uniqueIdentifier : Nat
  priority : Int
  syscallArgs : List Val
  kernelReturnValue : Int
deriving DecidableEq

/-- `setStackPointer` of `DedicatedNonRecyclableStackSupport`. -/
def TCB.setStackPointer (task : TCB) (p : Ptr) : TCB :=
  { task with stackPointer := some p }

/-- `setPrivateStack` of `DedicatedRecyclableStackSupport`. -/
def TCB.setPrivateStack (task : TCB) (p : Ptr) : TCB :=
  { task with privateStack := some p }

/-- `setUniqueIdentifier` of `UniqueNumericIdentifierSupport`. -/
def TCB.setUniqueIdentifier (task : TCB) (identifier : Nat) : TCB :=
  { task with uniqueIdentifier := identifier }

/-- `setPriority` of `PriorityLevelSupport`. -/
def TCB.setPriority (task : TCB) (priority : Int) : TCB :=
  { task with priority := priority }

/-- `setSyscallKernelReturnValue` of `SystemCallSupport`: writes the
kernel return value slot of the caller's saved execution context. -/
def TCB.setSyscallKernelReturnValue (task : TCB) (retVal : Int) : TCB :=
  { task with kernelReturnValue := retVal }

/-- `getSyscallArgument<T>` of `SystemCallSupport` before decoding: one
destructive sequential read of the stateful cursor (invariant 3 of the
spec: each read advances the cursor by exactly one argument). Reading an
exhausted cursor yields an unspecified value, rendered as `vint 0`. -/
def TCB.getSyscallArgumentRaw (task : TCB) : Val × TCB :=
  match task.syscallArgs with
  | [] => (Val.vint 0, task)
  | v :: rest => (v, { task with syscallArgs := rest })

/-- `getSyscallArgument<int>`. -/
def TCB.getSyscallArgumentInt (task : TCB) : Int × TCB :=
  (decodeInt task.getSyscallArgumentRaw.1, task.getSyscallArgumentRaw.2)

/-- `getSyscallArgument<UInt8*>`. -/
def TCB.getSyscallArgumentPtr (task : TCB) : Ptr × TCB :=
  (decodePtr task.getSyscallArgumentRaw.1, task.getSyscallArgumentRaw.2)

/-! ## Thread-based model: task initializers (KPI namespace) -/

/-- Result of applying one initializer: `none` when the initializer hits
a fatal `precondition` failure (panic), otherwise the mutated task and
the initializer's boolean result. -/
abbrev InitResult := Option (TCB × Bool)

/-- A task initializer made uniform over the raw argument encoding so
that lists of initializers (the variadic `Initializers...` pack) can be
expressed: the functor consumes the task and its decoded argument. -/
abbrev TaskInit := TCB → Val → InitResult

/-- `KPI::AssignDedicatedRecyclableStackWithSize::operator()`
(`SimpleThreadBased/KernelServiceRoutines.hpp:159`): installs the
caller-provided stack, setting the private stack to its base and the
stack pointer to `base + size`; returns `true` always. -/
def AssignDedicatedRecyclableStackWithSize (task : TCB) (stack : Ptr × Nat) : TCB × Bool :=
  ((task.setPrivateStack stack.1).setStackPointer (stack.1 + stack.2), true)

/-- `KPI::AssignUniqueIdentifier::operator()`
(`SimpleThreadBased/KernelServiceRoutines.hpp:219`): records the
identifier; returns `true` always. -/
def AssignUniqueIdentifier (task : TCB) (identifier : Nat) : TCB × Bool :=
  (task.setUniqueIdentifier identifier, true)

/-- `KPI::AssignPriority::operator()`
(`SimpleThreadBased/KernelServiceRoutines.hpp:246`): records the
priority; returns `true` always. -/
def AssignPriority (task : TCB) (priority : Int) : TCB × Bool :=
  (task.setPriority priority, true)

/-- `KPI::SetupExecutionContext::operator()`
(`SimpleThreadBased/KernelServiceRoutines.hpp:190`): panics
(`precondition`) when no stack is assigned; otherwise invokes the
architecture-specific context builder on the task and returns `true`.
The builder is the abstract parameter `contextBuilder`. -/
def SetupExecutionContext (contextBuilder : TCB → Ptr → TCB)
    (task : TCB) (entryPoint : Ptr) : InitResult :=
  match task.stackPointer with
  | none => none
  | some _ => some (contextBuilder task entryPoint, true)

/-- `AssignDedicatedRecyclableStackWithSize` lifted to the uniform
initializer shape via its declared `Arg = std::pair<UInt8*, size_t>`. -/
def assignDedicatedRecyclableStackWithSizeInit : TaskInit := fun task v =>
  some (AssignDedicatedRecyclableStackWithSize task (decodePair v))

/-- `AssignUniqueIdentifier` lifted via its declared `Arg = UInt32`. -/
def assignUniqueIdentifierInit : TaskInit := fun task v =>
  some (AssignUniqueIdentifier task (decodeNat v))

/-- `AssignPriority` lifted via its declared `Arg = Task::Priority`. -/
def assignPriorityInit : TaskInit := fun task v =>
  some (AssignPriority task (decodeInt v))

/-- `SetupExecutionContext` lifted via its declared `Arg = const UInt8*`. -/
def setupExecutionContextInit (contextBuilder : TCB → Ptr → TCB) : TaskInit := fun task v =>
  SetupExecutionContext contextBuilder task (decodePtr v)

/-- One step of the short-circuiting fold
`((Initializers{}(task, args)) && ...)`: propagate a panic, stop on a
`false` result, continue on `true`. -/
def stepInit (res : InitResult) (cont : TCB → InitResult) : InitResult :=
  match res with
  | none => none
  | some (t, false) => some (t, false)
  | some (t, true) => cont t

/-- `KPI::TaskInitializerBuilderWithArgs::operator()`
(`SimpleThreadBased/KernelServiceRoutines.hpp:274`): the fold expression
`((Initializers{}(task, std::forward<Args>(args))) && ...)` over the
initializer pack paired with its arguments, in declaration order, with
left-to-right short-circuit evaluation. -/
def TaskInitializerBuilderWithArgs : TCB → List (TaskInit × Val) → InitResult
  | task, [] => some (task, true)
  | task, p :: rest =>
    stepInit (p.1 task p.2) (fun t => TaskInitializerBuilderWithArgs t rest)

/-! ## Thread-based model: task controller and the in-kernel routine -/

/-- Modelled from the spec: the task controller is an external
collaborator (its contract in §6 is `allocate() -> *Task | null` and
`release(task)`); it owns a pool of free task control blocks. Modelled
as a free list: `allocate` removes a TCB from the pool (null on an empty
pool, the out-of-memory case) and `release` returns one to it. -/
structure TaskController where
  pool : List TCB
deriving DecidableEq

/-- Modelled from the spec: `allocate() -> *Task | null`. -/
def TaskController.allocate : TaskController → Option TCB × TaskController
  | ⟨[]⟩ => (none, ⟨[]⟩)
  | ⟨t :: rest⟩ => (some t, ⟨rest⟩)

/-- Modelled from the spec: `release(task)` returns the block to the pool. -/
def TaskController.release (controller : TaskController) (t : TCB) : TaskController :=
  ⟨t :: controller.pool⟩

/-- `CreateThread::ServiceRoutineBuilder::operator()`
(`SimpleThreadBased/KernelServiceRoutines.hpp:308`), the in-kernel form
of `create_thread`. The scheduler hook `onTaskCreated` is the abstract
collaborator `GetTaskScheduler<TaskScheduler>().onTaskCreated`. The
result is `(caller after the call, next task, controller after the
call)`; `none` is a panic inside an initializer. On an allocation
failure the caller's kernel return value is set to `-1` and the caller
itself is returned; on an initializer failure the new block is released
first and then the same error path runs; on success the scheduler picks
the next task. -/
def ServiceRoutineBuilder (onTaskCreated : TCB → TCB → TCB)
    (inits : List (TaskInit × Val)) (controller : TaskController) (task : TCB) :
    Option (TCB × TCB × TaskController) :=
  match controller.allocate with
  | (none, c) =>
    some (task.setSyscallKernelReturnValue (-1),
          task.setSyscallKernelReturnValue (-1), c)
  | (some newTask, c) =>
    match TaskInitializerBuilderWithArgs newTask inits with
    | none => none
    | some (nt, false) =>
      some (task.setSyscallKernelReturnValue (-1),
            task.setSyscallKernelReturnValue (-1), c.release nt)
    | some (nt, true) => some (task, onTaskCreated task nt, c)

/-! ## Thread-based model: the syscall form and its template instantiation -/

/-- The argument collector of
`CreateThread::ServiceRoutineBuilderWithTaskArgs::operator()`
(`SimpleThreadBased/KernelServiceRoutines.hpp:380`): the fold over
`std::index_sequence_for<Initializers...>` assigns tuple slot `I` from
the `I`-th sequential read of the task's stateful cursor, for
`I = 0, …, n-1` in order, materializing all `n` arguments before any
initializer runs. -/
def collectSyscallArguments : TCB → Nat → List Val × TCB
  | task, 0 => ([], task)
  | task, n + 1 =>
    (task.getSyscallArgumentRaw.1
       :: (collectSyscallArguments task.getSyscallArgumentRaw.2 n).1,
     (collectSyscallArguments task.getSyscallArgumentRaw.2 n).2)

/-- A template argument supplied after `Task` and `TaskScheduler` when
instantiating `CreateThread::ServiceRoutineBuilder<Task, TaskScheduler,
TaskController, Initializers...>`: either a type satisfying the
`TaskControllerProvidesBasicAllocationSupport` concept
(`Common/KernelServiceRoutines.hpp:97`) or an initializer type (tagged
by its position in the pack), which does not satisfy that concept. -/
inductive TemplateArg where
  | controllerTy : TemplateArg
  | initializerTy : Nat → TemplateArg
deriving DecidableEq

/-- Whether a template argument satisfies the
`TaskControllerProvidesBasicAllocationSupport` concept required of the
`TaskController` parameter by the requires-clause of
`ServiceRoutineBuilder` (`SimpleThreadBased/KernelServiceRoutines.hpp:297`):
the initializer functors declare no `allocate`/`release` members. -/
def satisfiesTaskControllerConcept : TemplateArg → Bool
  | TemplateArg.controllerTy => true
  | TemplateArg.initializerTy _ => false

/-- Binding of `ServiceRoutineBuilder`'s template parameters
`<TaskController, Initializers...>` to an explicit argument list
supplied after `Task` and `TaskScheduler`: the first explicit argument
fills the `TaskController` slot and the remainder becomes the
`Initializers...` pack (`none` when no argument is left for the
non-defaulted `TaskController` parameter). -/
def serviceRoutineBuilderTailBinding :
    List TemplateArg → Option (TemplateArg × List TemplateArg)
  | [] => none
  | c :: inits => some (c, inits)

/-- The explicit template argument list that
`ServiceRoutineBuilderWithTaskArgs::operator()` supplies after `Task`
and `TaskScheduler` at `SimpleThreadBased/KernelServiceRoutines.hpp:391`
(`ServiceRoutineBuilder<Task, TaskScheduler, Initializers...>::execute`):
its own `Initializers...` pack only — the `TaskController` parameter of
its own instantiation is not forwarded. -/
def withTaskArgsDelegationArgs (inits : List TemplateArg) : List TemplateArg :=
  inits

/-- The template parameter binding performed by the delegation at line
391: `serviceRoutineBuilderTailBinding` applied to the argument list the
syscall form actually supplies. -/
def delegatedInstantiation (inits : List TemplateArg) :
    Option (TemplateArg × List TemplateArg) :=
  serviceRoutineBuilderTailBinding (withTaskArgsDelegationArgs inits)

/-- The requires-clause of `TaskInitializerBuilderWithArgs::operator()`
(`SimpleThreadBased/KernelServiceRoutines.hpp:273`):
`sizeof...(Initializers) == sizeof...(Args)`. -/
def initializerArityMatches (numInits numArgs : Nat) : Bool :=
  numInits == numArgs

/-! ## Event-driven model -/

/-- `TableBasedEventController::getRegisteredEvent`
(`SimpleEventDriven/KernelServiceRoutines.hpp:29`): returns
`&this->tasks[event]` with no range check. The table `Task tasks[NumTasks]`
occupies the element-indexed addresses `tableBase, …, tableBase + NumTasks - 1`;
the `int` event converts to the unsigned `Event` template parameter of
bit width `eventWidth`, wrapping modulo `2 ^ eventWidth`. -/
def getRegisteredEvent (eventWidth tableBase : Nat) (event : Int) : TaskPtr :=
  tableBase + (event % ((2 : Int) ^ eventWidth)).toNat

/-- One-past-the-end address of the event table `Task tasks[NumTasks]`
of `TableBasedEventController`: a resolved handler address at or beyond
it lies outside the table. -/
def eventTableEnd (tableBase numTasks : Nat) : Nat :=
  tableBase + numTasks

/-- `KernelServiceRoutines::SyscallSendEvent::operator()`
(`SimpleEventDriven/KernelServiceRoutines.hpp:70`), instantiated with
`TableBasedEventController::getRegisteredEvent` as the `TaskMapper`:
fetches the event number from the caller's cursor, resolves the handler
control block through the mapper, and returns
`onTaskCreated(task, handler)`. The result is `(caller after the cursor
read, next task pointer)`; a fatal error would be `none`, and no path of
the routine produces one. -/
def SyscallSendEvent (eventWidth tableBase : Nat)
    (onTaskCreated : TCB → TaskPtr → TaskPtr) (task : TCB) :
    Option (TCB × TaskPtr) :=
  some (task.getSyscallArgumentInt.2,
        onTaskCreated task.getSyscallArgumentInt.2
          (getRegisteredEvent eventWidth tableBase task.getSyscallArgumentInt.1))

/-- The process-wide shared stack cell of the event-driven composition
(`SharedStackSupport` in `Common/TaskControlBlockComponents.hpp`:
`setStackPointer` writes `GetSharedTaskStackPointer()`). -/
structure SharedStackCell where
  sharedStackPointer : Ptr
deriving DecidableEq

/-- `KernelServiceRoutines::SyscallEventHandlerReturn::operator()`
(`SimpleEventDriven/KernelServiceRoutines.hpp:97`) in the shared-stack
composition: fetches the old stack pointer from the caller's cursor,
restores it via `task.setStackPointer` (which writes the shared cell),
then returns `onTaskFinished(task)`. The result is `(shared cell after,
caller after the cursor read, next task)`. -/
def SyscallEventHandlerReturn (onTaskFinished : TCB → TCB)
    (cell : SharedStackCell) (task : TCB) : SharedStackCell × TCB × TCB :=
  (⟨task.getSyscallArgumentPtr.1⟩,
   task.getSyscallArgumentPtr.2,
   onTaskFinished task.getSyscallArgumentPtr.2)

/-! ## Common routines -/

/-- Modelled from the spec: `pfatal` (declared in `Debug.hpp`, outside
this repository) reports a fatal error and halts; a halted routine
yields no next task, rendered as `none`. -/
def pfatalHalt : Option TCB := none

/-- `KernelServiceRoutines::UnknownServiceIdentifier::operator()`
(`Common/KernelServiceRoutines.hpp:116`): unconditionally
`pfatal("Unknown system call identifier.")`. -/
def UnknownServiceIdentifier (task : TCB) : Option TCB :=
  pfatalHalt

/-! ## Trampoline context injectors -/

/-- `PreemptiveEventHandlerTrampolineContextInjector::operator()`
(`SimpleEventDriven/EventHandlerTrampoline.hpp:26`): invokes the
architecture-specific context builder on `(prev, next)` if and only if
`*next > *prev`. Modelled from the spec: the comparison `*next > *prev`
is the `Prioritizable` operator of the Scheduler repository, specified
in §6 as the strict priority comparison `prio(next) > prio(prev)`. The
builder mutates an abstract world `σ` (stacks, shared cell). -/
def PreemptiveEventHandlerTrampolineContextInjector {σ : Type}
    (prio : TaskPtr → Int) (contextBuilder : TaskPtr → TaskPtr → σ → σ)
    (prev next : TaskPtr) (s : σ) : σ :=
  if prio next > prio prev then contextBuilder prev next s else s

/-- `CooperativeEventHandlerTrampolineContextInjector::operator()`
(`SimpleEventDriven/EventHandlerTrampoline.hpp:51`): invokes the context
builder if and only if `next != prev` (pointer comparison of the two
task control blocks). -/
def CooperativeEventHandlerTrampolineContextInjector {σ : Type}
    (contextBuilder : TaskPtr → TaskPtr → σ → σ)
    (prev next : TaskPtr) (s : σ) : σ :=
  if next ≠ prev then contextBuilder prev next s else s

/-! ## Dispatcher -/

/-- The dispatcher's observable state (`Dispatcher::prev`,
`Dispatcher::next`) together with the abstract world `σ` mutated by
injectors, the context switcher (user code runs inside it) and the
service routines. -/
structure DispatcherState (σ : Type) where
  prev : TaskPtr
  next : TaskPtr
  world : σ

/-- One iteration of the loop body of `Dispatcher::dispatch`
(`Common/Dispatcher.hpp:129`): run the injector pack on
`(this->prev, this->next)` in declaration order (the fold expression
`((Injector{}(this->prev, this->next)), ...)`), obtain the service
identifier from `Switcher::switchTask(this->prev, this->next)`, set
`prev` to the task that just trapped, and set `next` to the result of
the routine the mapper assigns to the identifier, applied to `prev`. -/
def dispatchStep {σ Id : Type} (injectors : List (TaskPtr → TaskPtr → σ → σ))
    (switchTask : TaskPtr → TaskPtr → σ → Id × σ)
    (routineMapper : Id → TaskPtr → σ → TaskPtr × σ)
    (st : DispatcherState σ) : DispatcherState σ :=
  let w1 := injectors.foldl (fun w inj => inj st.prev st.next w) st.world
  let idw := switchTask st.prev st.next w1
  let nextw := routineMapper idw.1 st.next idw.2
  ⟨st.next, nextw.1, nextw.2⟩

/-- An injector that records its tag and the `(prev, next)` pair it was
invoked on, used to observe the declaration order of the injector pack. -/
def loggingInjector (k : Nat) :
    TaskPtr → TaskPtr → List (Nat × TaskPtr × TaskPtr) → List (Nat × TaskPtr × TaskPtr) :=
  fun prev next w => w ++ [(k, prev, next)]

/-- A context switcher that returns a fixed identifier and leaves the
world unchanged, used to observe the injector log. -/
def trivialSwitch :
    TaskPtr → TaskPtr → List (Nat × TaskPtr × TaskPtr) → Nat × List (Nat × TaskPtr × TaskPtr) :=
  fun _ _ w => (0, w)

/-- A routine mapper whose every routine returns its input task and
leaves the world unchanged. -/
def trivialRoutineMapper :
    Nat → TaskPtr → List (Nat × TaskPtr × TaskPtr) → TaskPtr × List (Nat × TaskPtr × TaskPtr) :=
  fun _ t w => (t, w)

/-! ## Predicates used by the claims -/

/-- The canonical always-true initializers of claim C10, in their
uniform shape: the stack assigner, the identifier assigner, the
priority assigner, and the context setup step for any architecture
context builder. -/
def IsCanonicalInit (i : TaskInit) : Prop :=
  i = assignDedicatedRecyclableStackWithSizeInit ∨
  i = assignUniqueIdentifierInit ∨
  i = assignPriorityInit ∨
  ∃ b, i = setupExecutionContextInit b

/-- Whether the composite initializer application took the failure exit:
`true` exactly when the fold stopped at an initializer that returned
`false`. -/
def initFailed : InitResult → Bool
  | some (_, false) => true
  | _ => false

/-- The continuation of `ServiceRoutineBuilder` past the allocation
guard when the initializer-failure branch cannot fire: propagate a panic,
and otherwise hand the initialized block to the scheduler, keeping the
controller state left by the allocation. -/
def successContinuation (onTaskCreated : TCB → TCB → TCB) (task : TCB)
    (c : TaskController) : InitResult → Option (TCB × TCB × TaskController)
  | none => none
  | some (t, _) => some (task, onTaskCreated task t, c)

/-- Continuation of the initializer fold after a prefix: used to state
that `TaskInitializerBuilderWithArgs` runs its list left to right. -/
def contInit (res : InitResult) (ys : List (TaskInit × Val)) : InitResult :=
  match res with
  | none => none
  | some (t, false) => some (t, false)
  | some (t, true) => TaskInitializerBuilderWithArgs t ys

/-! ## Helper lemmas -/

theorem taskInitializerBuilderWithArgs_append (task : TCB)
    (xs ys : List (TaskInit × Val)) :
    TaskInitializerBuilderWithArgs task (xs ++ ys)
      = contInit (TaskInitializerBuilderWithArgs task xs) ys := by
  induction xs generalizing task with
  | nil => rfl
  | cons p xs ih =>
    rw [List.cons_append]
    simp only [TaskInitializerBuilderWithArgs]
    rcases hpa : p.1 task p.2 with _ | ⟨t, b⟩
    · simp [stepInit, contInit]
    · cases b with
      | false => simp [stepInit, contInit]
      | true => simp only [stepInit]; exact ih t

theorem canonicalInit_apply (i : TaskInit) (hi : IsCanonicalInit i)
    (task : TCB) (a : Val) :
    i task a = none ∨ ∃ t, i task a = some (t, true) := by
  rcases hi with h | h | h | ⟨b, h⟩
  · subst h
    exact Or.inr ⟨_, rfl⟩
  · subst h
    exact Or.inr ⟨_, rfl⟩
  · subst h
    exact Or.inr ⟨_, rfl⟩
  · subst h
    rcases hsp : task.stackPointer with _ | sp
    · exact Or.inl (by simp [setupExecutionContextInit, SetupExecutionContext, hsp])
    · exact Or.inr ⟨b task (decodePtr a),
        by simp [setupExecutionContextInit, SetupExecutionContext, hsp]⟩

theorem canonicalInits_never_false (inits : List (TaskInit × Val))
    (h : ∀ p ∈ inits, IsCanonicalInit p.1) (task : TCB) :
    TaskInitializerBuilderWithArgs task inits = none ∨
      ∃ t, TaskInitializerBuilderWithArgs task inits = some (t, true) := by
  induction inits generalizing task with
  | nil => exact Or.inr ⟨task, rfl⟩
  | cons p rest ih =>
    have hp : IsCanonicalInit p.1 := h p (List.mem_cons_self p rest)
    have hrest : ∀ q ∈ rest, IsCanonicalInit q.1 :=
      fun q hq => h q (List.mem_cons_of_mem p hq)
    simp only [TaskInitializerBuilderWithArgs]
    rcases canonicalInit_apply p.1 hp task p.2 with hnone | ⟨t, htrue⟩
    · rw [hnone]
      exact Or.inl rfl
    · rw [htrue]
      simpa only [stepInit] using ih hrest t

theorem loggingInjector_foldl (p q : TaskPtr) (ks : List Nat)
    (w : List (Nat × TaskPtr × TaskPtr)) :
    (ks.map loggingInjector).foldl (fun acc inj => inj p q acc) w
      = w ++ ks.map (fun k => (k, p, q)) := by
  induction ks generalizing w with
  | nil => simp
  | cons k ks ih =>
    simp only [List.map_cons, List.foldl_cons, loggingInjector]
    rw [ih]
    simp

/-! ## Claim theorems -/

/-- C9: for every input task, the `unknown_identifier` service routine
(`UnknownServiceIdentifier`) reports a fatal error and halts; it never
returns a next task. -/
theorem unknownServiceIdentifier_halts_c9 :
    ∀ task : TCB, UnknownServiceIdentifier task = none :=
  fun _ => rfl

/-- C6: the preemptive trampoline injector invokes the context builder
on `(prev, next)` if and only if `next`'s priority is strictly greater
than `prev`'s, and the cooperative trampoline injector invokes it if and
only if `next` is not the same task as `prev`; in every other case each
injector leaves the world untouched. Invocation is observed
extensionally: for every context builder, the injector's result is the
builder's result exactly under the gate, and the unchanged world
otherwise. -/
theorem trampoline_injector_gating_c6 :
    (∀ (σ : Type) (prio : TaskPtr → Int)
       (contextBuilder : TaskPtr → TaskPtr → σ → σ) (prev next : TaskPtr) (s : σ),
       (prio next > prio prev →
         PreemptiveEventHandlerTrampolineContextInjector prio contextBuilder prev next s
           = contextBuilder prev next s) ∧
       (¬ prio next > prio prev →
         PreemptiveEventHandlerTrampolineContextInjector prio contextBuilder prev next s
           = s)) ∧
    (∀ (σ : Type) (contextBuilder : TaskPtr → TaskPtr → σ → σ)
       (prev next : TaskPtr) (s : σ),
       (next ≠ prev →
         CooperativeEventHandlerTrampolineContextInjector contextBuilder prev next s
           = contextBuilder prev next s) ∧
       (next = prev →
         CooperativeEventHandlerTrampolineContextInjector contextBuilder prev next s
           = s)) := by
  constructor
  · intro σ prio contextBuilder prev next s
    constructor
    · intro h
      simp [PreemptiveEventHandlerTrampolineContextInjector, h]
    · intro h
      simp [PreemptiveEventHandlerTrampolineContextInjector, h]
  · intro σ contextBuilder prev next s
    constructor
    · intro h
      simp [CooperativeEventHandlerTrampolineContextInjector, h]
    · intro h
      simp [CooperativeEventHandlerTrampolineContextInjector, h]

/-- Witness for C6 at concrete inputs: priorities `prio 0 = 0`,
`prio 1 = 1`, a builder that increments the world. -/
theorem trampoline_injector_gating_c6_witness :
    PreemptiveEventHandlerTrampolineContextInjector (fun t => (t : Int))
        (fun _ _ s => s + 1) 0 1 (0 : Nat) = 1 ∧
    PreemptiveEventHandlerTrampolineContextInjector (fun t => (t : Int))
        (fun _ _ s => s + 1) 1 0 (0 : Nat) = 0 ∧
    CooperativeEventHandlerTrampolineContextInjector
        (fun _ _ s => s + 1) 0 1 (0 : Nat) = 1 ∧
    CooperativeEventHandlerTrampolineContextInjector
        (fun _ _ s => s + 1) 2 2 (0 : Nat) = 0 := by
  refine ⟨?_, ?_, ?_, ?_⟩
  · exact (trampoline_injector_gating_c6.1 Nat (fun t => (t : Int))
      (fun _ _ s => s + 1) 0 1 0).1 (by decide)
  · exact (trampoline_injector_gating_c6.1 Nat (fun t => (t : Int))
      (fun _ _ s => s + 1) 1 0 0).2 (by decide)
  · exact (trampoline_injector_gating_c6.2 Nat
      (fun _ _ s => s + 1) 0 1 0).1 (by decide)
  · exact (trampoline_injector_gating_c6.2 Nat
      (fun _ _ s => s + 1) 2 2 0).2 (by decide)

/-- C7: one iteration of the dispatcher loop starting from `(prev, next)`
runs every injector on `(prev, next)` in declaration order (observed with
tagged logging injectors), obtains the identifier from the context switch
performed after the injector fold, ends with `prev` equal to the old
`next` and `next` equal to the routine the mapper assigns to that
identifier applied to the old `next`; in particular, when every routine
returns its input task, the state after the iteration is `(next, next)`. -/
theorem dispatcher_iteration_c7 :
    (∀ (σ Id : Type) (injectors : List (TaskPtr → TaskPtr → σ → σ))
       (switchTask : TaskPtr → TaskPtr → σ → Id × σ)
       (routineMapper : Id → TaskPtr → σ → TaskPtr × σ) (st : DispatcherState σ),
       (dispatchStep injectors switchTask routineMapper st).prev = st.next ∧
       (dispatchStep injectors switchTask routineMapper st).next
         = (routineMapper
             (switchTask st.prev st.next
               (injectors.foldl (fun w inj => inj st.prev st.next w) st.world)).1
             st.next
             (switchTask st.prev st.next
               (injectors.foldl (fun w inj => inj st.prev st.next w) st.world)).2).1 ∧
       ((∀ (i : Id) (t : TaskPtr) (w : σ), (routineMapper i t w).1 = t) →
         (dispatchStep injectors switchTask routineMapper st).next = st.next)) ∧
    (∀ (n : Nat) (st : DispatcherState (List (Nat × TaskPtr × TaskPtr))),
       (dispatchStep ((List.range n).map loggingInjector)
           trivialSwitch trivialRoutineMapper st).world
         = st.world ++ (List.range n).map (fun k => (k, st.prev, st.next))) := by
  constructor
  · intro σ Id injectors switchTask routineMapper st
    refine ⟨rfl, rfl, ?_⟩
    intro hfix
    exact hfix _ _ _
  · intro n st
    simp only [dispatchStep, trivialRoutineMapper, trivialSwitch]
    exact loggingInjector_foldl st.prev st.next (List.range n) st.world

/-- Witness for C7 at a concrete instance: two logging injectors, the
trivial switch, and the identity routine, starting from `(3, 5)`. -/
theorem dispatcher_iteration_c7_witness :
    (dispatchStep ((List.range 2).map loggingInjector)
        trivialSwitch trivialRoutineMapper
        (⟨3, 5, []⟩ : DispatcherState (List (Nat × TaskPtr × TaskPtr)))).next = 5 ∧
    (dispatchStep ((List.range 2).map loggingInjector)
        trivialSwitch trivialRoutineMapper
        (⟨3, 5, []⟩ : DispatcherState (List (Nat × TaskPtr × TaskPtr)))).world
      = [(0, 3, 5), (1, 3, 5)] := by
  constructor
  · exact (dispatcher_iteration_c7.1 _ Nat ((List.range 2).map loggingInjector)
      trivialSwitch trivialRoutineMapper ⟨3, 5, []⟩).2.2 (fun _ _ _ => rfl)
  · have h := dispatcher_iteration_c7.2 2 ⟨3, 5, []⟩
    simpa using h

/-- C5: for every task and every pointer `old_sp` supplied as the first
syscall argument, `event_handler_return` sets the shared stack pointer
to `old_sp` — regardless of the shared cell's prior contents, i.e. of
whatever the handler pushed — and returns `onTaskFinished(task)` as the
next task, where `task` is the caller after the cursor read. -/
theorem eventHandlerReturn_restores_shared_sp_c5
    (onTaskFinished : TCB → TCB) (cell : SharedStackCell) (task : TCB)
    (oldSp : Ptr) (rest : List Val)
    (h : task.syscallArgs = Val.vptr oldSp :: rest) :
    SyscallEventHandlerReturn onTaskFinished cell task
      = (⟨oldSp⟩, { task with syscallArgs := rest },
         onTaskFinished { task with syscallArgs := rest }) := by
  simp [SyscallEventHandlerReturn, TCB.getSyscallArgumentPtr,
    TCB.getSyscallArgumentRaw, h, decodePtr]

/-- Witness for C5: a caller whose cursor holds the pointer `42`, a
shared cell previously left at `7` by the handler. -/
theorem eventHandlerReturn_restores_shared_sp_c5_witness :
    SyscallEventHandlerReturn id ⟨7⟩
        ⟨none, none, 0, 0, [Val.vptr 42], 0⟩
      = (⟨42⟩, ⟨none, none, 0, 0, [], 0⟩,
         id (⟨none, none, 0, 0, [], 0⟩ : TCB)) :=
  eventHandlerReturn_restores_shared_sp_c5 id ⟨7⟩
    ⟨none, none, 0, 0, [Val.vptr 42], 0⟩ 42 [] rfl

/-- C8: the composite initializer application
(`TaskInitializerBuilderWithArgs`) applies the initializers to the new
TCB in declaration order and stops at the first one that returns
`false`, leaving later initializers uninvoked (the result does not
depend on what follows the first failing initializer); and when it
returns `true`, every initializer in the list was invoked on the state
produced by its predecessors and returned `true`. -/
theorem taskInitializer_declaration_order_c8 :
    (∀ (task : TCB) (pre : List (TaskInit × Val)) (i : TaskInit) (a : Val)
       (post post' : List (TaskInit × Val)) (t u : TCB),
       TaskInitializerBuilderWithArgs task pre = some (t, true) →
       i t a = some (u, false) →
       TaskInitializerBuilderWithArgs task (pre ++ (i, a) :: post) = some (u, false) ∧
       TaskInitializerBuilderWithArgs task (pre ++ (i, a) :: post)
         = TaskInitializerBuilderWithArgs task (pre ++ (i, a) :: post')) ∧
    (∀ (task : TCB) (pre : List (TaskInit × Val)) (i : TaskInit) (a : Val)
       (post : List (TaskInit × Val)) (t : TCB),
       TaskInitializerBuilderWithArgs task (pre ++ (i, a) :: post) = some (t, true) →
       ∃ t' u, TaskInitializerBuilderWithArgs task pre = some (t', true) ∧
         i t' a = some (u, true)) := by
  constructor
  · intro task pre i a post post' t u h1 h2
    have key : ∀ q : List (TaskInit × Val),
        TaskInitializerBuilderWithArgs task (pre ++ (i, a) :: q) = some (u, false) := by
      intro q
      rw [taskInitializerBuilderWithArgs_append, h1]
      simp only [contInit, TaskInitializerBuilderWithArgs]
      simp [stepInit, h2]
    exact ⟨key post, (key post).trans (key post').symm⟩
  · intro task pre i a post t h
    rw [taskInitializerBuilderWithArgs_append] at h
    rcases hpre : TaskInitializerBuilderWithArgs task pre with _ | ⟨t', b⟩
    · rw [hpre] at h
      simp [contInit] at h
    · rw [hpre] at h
      cases b with
      | false => simp [contInit] at h
      | true =>
        simp only [contInit, TaskInitializerBuilderWithArgs] at h
        rcases hia : i t' a with _ | ⟨u, b'⟩
        · rw [hia] at h
          simp [stepInit] at h
        · rw [hia] at h
          cases b' with
          | false => simp [stepInit] at h
          | true => exact ⟨t', u, rfl, hia⟩

/-- Witness for C8: the empty prefix, an initializer that returns
`false`, and two different suffixes. -/
theorem taskInitializer_declaration_order_c8_witness :
    TaskInitializerBuilderWithArgs ⟨none, none, 0, 0, [], 0⟩
        ([] ++ (fun (t : TCB) (_ : Val) => some (t, false), Val.vnat 0)
           :: [(assignPriorityInit, Val.vint 3)])
      = some (⟨none, none, 0, 0, [], 0⟩, false) ∧
    TaskInitializerBuilderWithArgs ⟨none, none, 0, 0, [], 0⟩
        ([] ++ (fun (t : TCB) (_ : Val) => some (t, false), Val.vnat 0)
           :: [(assignPriorityInit, Val.vint 3)])
      = TaskInitializerBuilderWithArgs ⟨none, none, 0, 0, [], 0⟩
          ([] ++ (fun (t : TCB) (_ : Val) => some (t, false), Val.vnat 0) :: []) :=
  taskInitializer_declaration_order_c8.1 ⟨none, none, 0, 0, [], 0⟩ []
    (fun t _ => some (t, false)) (Val.vnat 0)
    [(assignPriorityInit, Val.vint 3)] []
    ⟨none, none, 0, 0, [], 0⟩ ⟨none, none, 0, 0, [], 0⟩ rfl rfl

/-- C3: for every calling task, whenever `create_thread` fails
recoverably — `allocate()` returns null, or some initializer returns
`false` — the in-kernel routine writes the error code `-1` into the
caller's syscall return value slot, releases the newly allocated TCB if
one was allocated (so the controller's pool size is unchanged), and
returns the (updated) calling task itself as the next task. -/
theorem createThread_recoverable_failure_c3
    (onTaskCreated : TCB → TCB → TCB) (inits : List (TaskInit × Val))
    (controller c : TaskController) (task nt t : TCB) :
    (controller.allocate = (none, c) →
      ServiceRoutineBuilder onTaskCreated inits controller task
        = some (task.setSyscallKernelReturnValue (-1),
                task.setSyscallKernelReturnValue (-1), c) ∧
      c.pool.length = controller.pool.length) ∧
    (controller.allocate = (some nt, c) →
      TaskInitializerBuilderWithArgs nt inits = some (t, false) →
      ServiceRoutineBuilder onTaskCreated inits controller task
        = some (task.setSyscallKernelReturnValue (-1),
                task.setSyscallKernelReturnValue (-1), c.release t) ∧
      (c.release t).pool.length = controller.pool.length) := by
  obtain ⟨pool⟩ := controller
  constructor
  · intro hac
    cases pool with
    | nil =>
      simp only [TaskController.allocate, Prod.mk.injEq] at hac
      rw [← hac.2]
      exact ⟨rfl, rfl⟩
    | cons a rest =>
      simp [TaskController.allocate] at hac
  · intro hac hinit
    cases pool with
    | nil => simp [TaskController.allocate] at hac
    | cons a rest =>
      simp only [TaskController.allocate, Prod.mk.injEq, Option.some.injEq] at hac
      obtain ⟨ha, hc⟩ := hac
      subst ha
      subst hc
      constructor
      · simp only [ServiceRoutineBuilder, TaskController.allocate, hinit]
      · simp [TaskController.release]

/-- Witness for C3, exercising both recoverable failures: an empty pool
(so `allocate()` returns null), and a one-element pool with an
initializer that returns `false` (so the block is released back). -/
theorem createThread_recoverable_failure_c3_witness :
    (ServiceRoutineBuilder (fun a _ => a) [] ⟨[]⟩ ⟨none, none, 0, 0, [], 0⟩
       = some (TCB.setSyscallKernelReturnValue ⟨none, none, 0, 0, [], 0⟩ (-1),
               TCB.setSyscallKernelReturnValue ⟨none, none, 0, 0, [], 0⟩ (-1), ⟨[]⟩) ∧
     (⟨[]⟩ : TaskController).pool.length = (⟨[]⟩ : TaskController).pool.length) ∧
    (ServiceRoutineBuilder (fun a _ => a)
         [(fun (t : TCB) (_ : Val) => some (t, false), Val.vnat 0)]
         ⟨[⟨none, none, 7, 0, [], 0⟩]⟩ ⟨none, none, 0, 0, [], 0⟩
       = some (TCB.setSyscallKernelReturnValue ⟨none, none, 0, 0, [], 0⟩ (-1),
               TCB.setSyscallKernelReturnValue ⟨none, none, 0, 0, [], 0⟩ (-1),
               TaskController.release ⟨[]⟩ ⟨none, none, 7, 0, [], 0⟩) ∧
     (TaskController.release ⟨[]⟩ ⟨none, none, 7, 0, [], 0⟩).pool.length
       = (⟨[⟨none, none, 7, 0, [], 0⟩]⟩ : TaskController).pool.length) :=
  ⟨(createThread_recoverable_failure_c3 (fun a _ => a) [] ⟨[]⟩ ⟨[]⟩
      ⟨none, none, 0, 0, [], 0⟩ ⟨none, none, 0, 0, [], 0⟩
      ⟨none, none, 0, 0, [], 0⟩).1 rfl,
   (createThread_recoverable_failure_c3 (fun a _ => a)
      [(fun (t : TCB) (_ : Val) => some (t, false), Val.vnat 0)]
      ⟨[⟨none, none, 7, 0, [], 0⟩]⟩ ⟨[]⟩ ⟨none, none, 0, 0, [], 0⟩
      ⟨none, none, 7, 0, [], 0⟩ ⟨none, none, 7, 0, [], 0⟩).2 rfl rfl⟩

/-- C10: `AssignDedicatedRecyclableStackWithSize`,
`AssignUniqueIdentifier` and `AssignPriority` return `true` for every
task and argument; `SetupExecutionContext` returns `true` whenever the
task's stack pointer is non-null; consequently, a composite built only
from these initializers never returns `false`, so in a `create_thread`
routine composed only of them the initializer-failure branch (release
the TCB and return `-1`) is unreachable once the TCB allocation has
succeeded: the routine either panics inside `SetupExecutionContext` or
hands the new task to the scheduler. -/
theorem canonical_initializers_total_c10 :
    (∀ (task : TCB) (stack : Ptr × Nat),
       (AssignDedicatedRecyclableStackWithSize task stack).2 = true) ∧
    (∀ (task : TCB) (identifier : Nat),
       (AssignUniqueIdentifier task identifier).2 = true) ∧
    (∀ (task : TCB) (priority : Int),
       (AssignPriority task priority).2 = true) ∧
    (∀ (contextBuilder : TCB → Ptr → TCB) (task : TCB) (entryPoint sp : Ptr),
       task.stackPointer = some sp →
       SetupExecutionContext contextBuilder task entryPoint
         = some (contextBuilder task entryPoint, true)) ∧
    (∀ inits : List (TaskInit × Val), (∀ p ∈ inits, IsCanonicalInit p.1) →
       ∀ task : TCB,
         initFailed (TaskInitializerBuilderWithArgs task inits) = false) ∧
    (∀ inits : List (TaskInit × Val), (∀ p ∈ inits, IsCanonicalInit p.1) →
       ∀ (onTaskCreated : TCB → TCB → TCB) (controller c : TaskController)
         (task nt : TCB),
         controller.allocate = (some nt, c) →
         ServiceRoutineBuilder onTaskCreated inits controller task
           = successContinuation onTaskCreated task c
               (TaskInitializerBuilderWithArgs nt inits)) := by
  refine ⟨fun _ _ => rfl, fun _ _ => rfl, fun _ _ => rfl, ?_, ?_, ?_⟩
  · intro contextBuilder task entryPoint sp hsp
    simp [SetupExecutionContext, hsp]
  · intro inits hcan task
    rcases canonicalInits_never_false inits hcan task with hn | ⟨t, ht⟩
    · rw [hn]
      rfl
    · rw [ht]
      rfl
  · intro inits hcan onTaskCreated controller c task nt hac
    rcases canonicalInits_never_false inits hcan nt with hn | ⟨t, ht⟩
    · simp only [ServiceRoutineBuilder, hac, hn, successContinuation]
    · simp only [ServiceRoutineBuilder, hac, ht, successContinuation]

/-- Witness for C10: `SetupExecutionContext` on a task whose stack
pointer is assigned, and a `create_thread` instance whose only
initializer is `AssignPriority`, on a pool holding one free TCB: the
routine reaches the scheduler branch, never the release branch. -/
theorem canonical_initializers_total_c10_witness :
    SetupExecutionContext (fun t _ => t) ⟨some 4, none, 0, 0, [], 0⟩ 9
      = some ((fun (t : TCB) (_ : Ptr) => t) ⟨some 4, none, 0, 0, [], 0⟩ 9, true) ∧
    initFailed (TaskInitializerBuilderWithArgs ⟨none, none, 0, 0, [], 0⟩
        [(assignPriorityInit, Val.vint 3)]) = false ∧
    ServiceRoutineBuilder (fun a _ => a) [(assignPriorityInit, Val.vint 3)]
        ⟨[⟨none, none, 0, 0, [], 0⟩]⟩ ⟨none, none, 1, 0, [], 0⟩
      = successContinuation (fun a _ => a) ⟨none, none, 1, 0, [], 0⟩ ⟨[]⟩
          (TaskInitializerBuilderWithArgs ⟨none, none, 0, 0, [], 0⟩
            [(assignPriorityInit, Val.vint 3)]) :=
  ⟨canonical_initializers_total_c10.2.2.2.1 (fun t _ => t)
      ⟨some 4, none, 0, 0, [], 0⟩ 9 4 rfl,
   canonical_initializers_total_c10.2.2.2.2.1 [(assignPriorityInit, Val.vint 3)]
      (by intro p hp
          simp only [List.mem_singleton] at hp
          subst hp
          exact Or.inr (Or.inr (Or.inl rfl)))
      ⟨none, none, 0, 0, [], 0⟩,
   canonical_initializers_total_c10.2.2.2.2.2 [(assignPriorityInit, Val.vint 3)]
      (by intro p hp
          simp only [List.mem_singleton] at hp
          subst hp
          exact Or.inr (Or.inr (Or.inl rfl)))
      (fun a _ => a) ⟨[⟨none, none, 0, 0, [], 0⟩]⟩ ⟨[]⟩
      ⟨none, none, 1, 0, [], 0⟩ ⟨none, none, 0, 0, [], 0⟩ rfl⟩

/-- C1 (evaluation at the failing input): the argument collector of the
syscall form does read the cursor values in initializer declaration
order into the tuple — here the two values `vnat 7, vint 9` for a
two-initializer pack, leaving `vptr 3` on the cursor — but the
delegation at `SimpleThreadBased/KernelServiceRoutines.hpp:391` binds
the first initializer into the `TaskController` template slot, leaving
an initializer pack of one element against the two collected arguments,
so the arity requires-clause of `TaskInitializerBuilderWithArgs` is
violated and the `k`-th collected value is never passed to the `k`-th
initializer. -/
theorem createThread_syscall_argument_collection_c1 :
    collectSyscallArguments
        ⟨none, none, 0, 0, [Val.vnat 7, Val.vint 9, Val.vptr 3], 0⟩ 2
      = ([Val.vnat 7, Val.vint 9], ⟨none, none, 0, 0, [Val.vptr 3], 0⟩) ∧
    delegatedInstantiation [TemplateArg.initializerTy 1, TemplateArg.initializerTy 2]
      = some (TemplateArg.initializerTy 1, [TemplateArg.initializerTy 2]) ∧
    initializerArityMatches
        ([TemplateArg.initializerTy 2] : List TemplateArg).length
        ([Val.vnat 7, Val.vint 9] : List Val).length = false :=
  ⟨rfl, rfl, rfl⟩

/-- C2 (evaluation at the failing input): the syscall form's delegation
supplies only its `Initializers...` pack after `Task` and
`TaskScheduler`, so the binding of
`ServiceRoutineBuilder<Task, TaskScheduler, TaskController, Initializers...>`
puts the first initializer into the `TaskController` slot and drops it
from the initializer list — not the binding `(same controller, same
initializer list)` the claim describes — and the bound controller type
fails the `TaskControllerProvidesBasicAllocationSupport` requires-clause,
making the delegated instantiation ill-formed. -/
theorem createThread_syscall_delegation_c2 :
    delegatedInstantiation [TemplateArg.initializerTy 1, TemplateArg.initializerTy 2]
      = some (TemplateArg.initializerTy 1, [TemplateArg.initializerTy 2]) ∧
    serviceRoutineBuilderTailBinding
        (TemplateArg.controllerTy
          :: [TemplateArg.initializerTy 1, TemplateArg.initializerTy 2])
      = some (TemplateArg.controllerTy,
              [TemplateArg.initializerTy 1, TemplateArg.initializerTy 2]) ∧
    decide (delegatedInstantiation
          [TemplateArg.initializerTy 1, TemplateArg.initializerTy 2]
        = some (TemplateArg.controllerTy,
                [TemplateArg.initializerTy 1, TemplateArg.initializerTy 2]))
      = false ∧
    satisfiesTaskControllerConcept (TemplateArg.initializerTy 1) = false :=
  ⟨rfl, rfl, by decide, rfl⟩

/-- C4 counterexample: with a two-entry event table based at address
`100` and the out-of-range event number `5` on the caller's cursor,
`send_event` does not panic: it resolves the out-of-table handler
address `105` and passes it to the scheduler hook (here the hook that
returns the resolved handler). -/
theorem sendEvent_out_of_range_counterexample_c4 :
    SyscallSendEvent 32 100 (fun _ h => h)
        ⟨none, none, 0, 0, [Val.vint 5], 0⟩
      = some (⟨none, none, 0, 0, [], 0⟩, 105) ∧
    decide (SyscallSendEvent 32 100 (fun _ h => h)
          ⟨none, none, 0, 0, [Val.vint 5], 0⟩ = none) = false ∧
    eventTableEnd 100 2 ≤ 105 := by
  refine ⟨by decide, by decide, by decide⟩

/-- C4 as amended: for every event number read from the caller's cursor,
`send_event` performs no range check — it resolves the handler address
`&tasks[event]` through the table controller's unchecked indexing (an
address at or beyond the table's end whenever the event, converted to
the unsigned `Event` type, is at least `NumTasks`) and schedules via the
scheduler's task-creation hook; it never panics. -/
theorem sendEvent_unchecked_resolution_c4
    (eventWidth tableBase numTasks : Nat)
    (onTaskCreated : TCB → TaskPtr → TaskPtr) (task : TCB)
    (event : Int) (rest : List Val)
    (h : task.syscallArgs = Val.vint event :: rest) :
    SyscallSendEvent eventWidth tableBase onTaskCreated task
      = some ({ task with syscallArgs := rest },
              onTaskCreated { task with syscallArgs := rest }
                (getRegisteredEvent eventWidth tableBase event)) ∧
    (numTasks ≤ (event % ((2 : Int) ^ eventWidth)).toNat →
      eventTableEnd tableBase numTasks
        ≤ getRegisteredEvent eventWidth tableBase event) := by
  constructor
  · simp [SyscallSendEvent, TCB.getSyscallArgumentInt,
      TCB.getSyscallArgumentRaw, h, decodeInt, getRegisteredEvent]
  · intro hge
    simpa [eventTableEnd, getRegisteredEvent] using
      Nat.add_le_add_left hge tableBase

/-- Witness for the amended C4 at the counterexample's input. -/
theorem sendEvent_unchecked_resolution_c4_witness :
    SyscallSendEvent 32 100 (fun _ h => h)
        ⟨none, none, 0, 0, [Val.vint 5], 0⟩
      = some (⟨none, none, 0, 0, [], 0⟩,
              (fun (_ : TCB) (h : TaskPtr) => h) ⟨none, none, 0, 0, [], 0⟩
                (getRegisteredEvent 32 100 5)) ∧
    eventTableEnd 100 2 ≤ getRegisteredEvent 32 100 5 :=
  ⟨(sendEvent_unchecked_resolution_c4 32 100 2 (fun _ h => h)
      ⟨none, none, 0, 0, [Val.vint 5], 0⟩ 5 [] rfl).1,
   (sendEvent_unchecked_resolution_c4 32 100 2 (fun _ h => h)
      ⟨none, none, 0, 0, [Val.vint 5], 0⟩ 5 [] rfl).2 (by decide)⟩

end Execution
